import Mathlib

/-!
Shallow embedding of the scrappey-resolverr-rs repository (browser navigation
pipeline, challenge waiters, session-cookie sweep, FlareSolverr API conversion,
Scrappey fallback, and the HTTP-to-HTTP forward proxy bridge), together with
theorems settling the frozen specification claims.

Effectful sub-operations (WebDriver RPCs, TCP dials, upstream reads, the
Scrappey HTTP call, wall-clock polling) are modelled by explicit oracle
parameters describing each operation's outcome; control flow, data flow and
all pure computation are translated directly from the Rust source.
-/

namespace ScrappeyResolverr

/-! ## Data model (thirtyfour cookies, browser session data) -/

/-- SameSite attribute of a cookie (thirtyfour::SameSite). -/
inductive SameSite where
  | lax
  | strict
  | noneSite
deriving DecidableEq, Repr

/-- Browser cookie as stored by thirtyfour and in the persisted session data
(src/browser.rs uses thirtyfour::Cookie).  The expiry field is an optional
integer timestamp. -/
structure Cookie where
  name : String
  value : String
  path : Option String := none
  domain : Option String := none
  secure : Option Bool := none
  expiry : Option Int := none
  same_site : Option SameSite := none
deriving DecidableEq, Repr

/-- Session data persisted between runs (browser.rs, struct BrowserData). -/
structure BrowserData where
  user_agent : String
  cookies : List Cookie
deriving DecidableEq, Repr

/-- Result of a browser navigation (browser.rs, struct Response). -/
structure Response where
  url : String
  status : Nat
  body : String
  cookies : List Cookie
  user_agent : String
deriving DecidableEq, Repr

/-- Browser configuration (browser.rs, struct BrowserConfig); the WebDriver
URL and window size play no role in the modelled control flow but are kept
for completeness. -/
structure BrowserConfig where
  webdriver_url : String := "http://localhost:9515"
  window_width : Nat := 1920
  window_height : Nat := 1080
  proxy_host : String := "127.0.0.1"
  proxy_port : Nat := 1080
  proxy_username : Option String := none
  proxy_password : Option String := none
  scrappey_api_key : String := ""
deriving DecidableEq, Repr

/-- Expired-cookie sweep (browser.rs, Browser::clean_expired_cookies):
retain every cookie except those whose expiry is set and satisfies
expiry <= now. -/
def Browser.clean_expired_cookies (cookies : List Cookie) (now : Int) : List Cookie :=
  cookies.filter fun cookie =>
    match cookie.expiry with
    | some expiry => if expiry ≤ now then false else true
    | none => true

/-! ## Challenge waiters (src/challenge.rs)

Both waiters run the Rust loop
`while is_protected { if elapsed > timeout { err }; sleep(1s) }`.
The page's protection status is modelled as a function of the tick number
(the loop body at iteration e runs with about e seconds elapsed, one tick
per one-second sleep).  The loop is embedded with explicit fuel; fuel
`timeout + 2` is enough to reach either exit, since the error branch fires
at tick `timeout + 1` at the latest. -/

/-- Fuel-indexed polling loop shared by both waiters.  At tick e it first
checks protection, then the elapsed-time bound, then sleeps and recurses. -/
def waitGo (protectedAt : Nat → Bool) (timeout : Nat) (msg : String) :
    Nat → Nat → Except String Unit
  | fuel, e =>
    if protectedAt e then
      if e > timeout then .error msg
      else
        match fuel with
        | 0 => .error msg
        | fuel' + 1 => waitGo protectedAt timeout msg fuel' (e + 1)
    else .ok ()

/-- Error message of the DDoS-Guard waiter (challenge.rs, ddos_guard). -/
def ddosTimeoutMsg : String := "DDoS Guard challenge timed out"

/-- Error message of the Cloudflare waiter (challenge.rs, cloudflare). -/
def cfTimeoutMsg : String := "Cloudflare challenge timed out"

/-- DDoS-Guard waiter (challenge.rs, ddos_guard::handle_challenge): poll at
1 Hz until the page is no longer protected, failing once more than timeout
seconds have elapsed while still protected. -/
def ddos_guard.handle_challenge (protectedAt : Nat → Bool) (timeout : Nat) :
    Except String Unit :=
  waitGo protectedAt timeout ddosTimeoutMsg (timeout + 2) 0

/-- Cloudflare waiter (challenge.rs, cloudflare::handle_challenge); identical
loop with its own message. -/
def cloudflare.handle_challenge (protectedAt : Nat → Bool) (timeout : Nat) :
    Except String Unit :=
  waitGo protectedAt timeout cfTimeoutMsg (timeout + 2) 0

/-! ## Scrappey API data shapes (src/scrappey.rs) -/

/-- Cookie object in Scrappey requests and responses (scrappey.rs,
struct ScrappeyCookie). -/
structure ScrappeyCookie where
  name : String
  value : String
  domain : String
  path : String
  expires : Option Int := none
  http_only : Option Bool := none
  secure : Option Bool := none
  same_site : Option String := none
deriving DecidableEq, Repr

/-- Conversion from a ScrappeyCookie to a thirtyfour cookie (scrappey.rs,
impl From for Cookie): the expires field is copied into expiry unchanged and
the sameSite string is matched case-insensitively. -/
def Cookie.ofScrappeyCookie (scr : ScrappeyCookie) : Cookie :=
  { name := scr.name
    value := scr.value
    path := some scr.path
    domain := some scr.domain
    secure := scr.secure
    expiry := scr.expires
    same_site := scr.same_site.bind fun s =>
      match s.toLower with
      | "lax" => some SameSite.lax
      | "strict" => some SameSite.strict
      | "none" => some SameSite.noneSite
      | _ => none }

/-- Solution object of a Scrappey response (scrappey.rs, struct
ScrappeySolution).  Every field is optional, as in the source; the
JSON-valued header maps are abstracted as string pairs. -/
structure ScrappeySolution where
  verified : Option Bool := none
  current_url : Option String := none
  status_code : Option Nat := none
  user_agent : Option String := none
  inner_text : Option String := none
  local_storage_data : Option (List (String × String)) := none
  cookies : Option (List ScrappeyCookie) := none
  cookie_string : Option String := none
  response : Option String := none
  response_headers : Option (List (String × String)) := none
  request_headers : Option (List (String × String)) := none
  request_body : Option String := none
  ip_info : Option (List (String × String)) := none
  method : Option String := none
  type : Option String := none
deriving DecidableEq, Repr

/-- Scrappey API response (scrappey.rs, struct ScrappeyResponse). -/
structure ScrappeyResponse where
  solution : ScrappeySolution
  time_elapsed : Option Nat := none
  data : Option String := none
  session : Option String := none
deriving DecidableEq, Repr

/-! ## Browser.get navigation pipeline (src/browser.rs)

Rust functions returning anyhow::Result are embedded as Except String;
a Rust panic (which unwinds instead of returning) is a separate outcome. -/

/-- Outcome of a Rust computation: a returned value, a returned typed error,
or a panic that unwinds the call without returning. -/
inductive Outcome (α : Type) where
  | ok (a : α)
  | err (e : String)
  | panicked (msg : String)
deriving Repr

/-- Proxy string handed to Scrappey (browser.rs, fallback_to_scrappey):
credentials are embedded only when both username and password are set. -/
def Browser.buildScrappeyProxy (cfg : BrowserConfig) : String :=
  match cfg.proxy_username, cfg.proxy_password with
  | some username, some password =>
      "http://" ++ username ++ ":" ++ password ++ "@" ++ cfg.proxy_host ++ ":"
        ++ toString cfg.proxy_port
  | _, _ => "http://" ++ cfg.proxy_host ++ ":" ++ toString cfg.proxy_port

/-- Scrappey fallback (browser.rs, Browser::fallback_to_scrappey) given the
outcome of the Scrappey HTTP call.  Mirrors the source line by line: an empty
API key is a typed error; a transport/parse error is propagated; on success
the code calls response.solution.cookies.unwrap() - a panic when the field is
absent - then appends the converted cookies to the session data, adopts the
returned user agent when present, and builds the Response from the solution
fields with their defaults. -/
def Browser.fallback_to_scrappey (cfg : BrowserConfig) (data : BrowserData)
    (url : String) (scrappeyResult : Except String ScrappeyResponse) :
    Outcome (BrowserData × Response) :=
  if cfg.scrappey_api_key = "" then
    .err "Scrappey API key not configured"
  else
    match scrappeyResult with
    | .error e => .err e
    | .ok response =>
      match response.solution.cookies with
      | none => .panicked "called Option.unwrap on a None value"
      | some cs =>
        let data1 : BrowserData :=
          { data with cookies := data.cookies ++ cs.map Cookie.ofScrappeyCookie }
        let data2 : BrowserData :=
          match response.solution.user_agent with
          | some ua => { data1 with user_agent := ua }
          | none => data1
        .ok (data2,
          { url := response.solution.current_url.getD url
            status := response.solution.status_code.getD 200
            body := response.solution.response.getD ""
            cookies := data2.cookies
            user_agent := data2.user_agent })

/-- Oracle describing the outcomes of the effectful sub-operations of one
Browser.get call: driver setup, current wall-clock time, the CDP cookie RPCs,
the navigation, the two challenge detectors and the page's protection status
at each waiter tick, the teardown performed before the Scrappey fallback, the
Scrappey call, the extraction RPCs and their data, and the final teardown. -/
structure NavEnv where
  setupResult : Except String Unit
  now : Int
  configureResult : Except String Unit
  navigateResult : Except String Unit
  ddosDetected : Bool
  ddosProtectedAt : Nat → Bool
  cfDetected : Bool
  cfProtectedAt : Nat → Bool
  cfQuitResult : Except String Unit
  scrappeyResult : Except String ScrappeyResponse
  extractResult : Except String Unit
  extractCookies : List Cookie
  extractAllCookies : List Cookie
  extractBody : String
  finalQuitResult : Except String Unit

/-- DDoS-Guard phase of handle_challenges (browser.rs, lines 199-203): when
the detector fires, the DDoS-Guard waiter runs with the full overall timeout
as its budget. -/
def Browser.ddosPhase (env : NavEnv) (timeout : Nat) : Except String Unit :=
  if env.ddosDetected then
    ddos_guard.handle_challenge env.ddosProtectedAt timeout
  else .ok ()

/-- Response extraction (browser.rs, Browser::extract_response): harvested
cookies replace the session-data cookie set, and the Response reports status
200 with the page source and the driver's cookie enumeration. -/
def Browser.extract_response (data : BrowserData) (url : String) (env : NavEnv) :
    Except String (BrowserData × Response) :=
  match env.extractResult with
  | .error e => .error e
  | .ok _ =>
    let data2 : BrowserData := { data with cookies := env.extractCookies }
    .ok (data2,
      { url := url
        status := 200
        body := env.extractBody
        cookies := env.extractAllCookies
        user_agent := data2.user_agent })

/-- Observable trace of one Browser.get call: the outcome, the resulting
session data, whether fallback_to_scrappey was invoked, and how many times a
driver teardown (quit) was invoked. -/
structure GetTrace where
  outcome : Outcome Response
  data : BrowserData
  fallbackInvoked : Bool
  quitCalls : Nat

/-- Inner closure of Browser.get (browser.rs, lines 103-115) together with
handle_challenges and handle_cloudflare_challenge: cookie hydration (which
first runs the expired-cookie sweep), navigation, the DDoS-Guard waiter with
budget timeout, the Cloudflare waiter with budget timeout / 3, and on
Cloudflare timeout a driver teardown followed - only if that teardown
succeeds - by the Scrappey fallback with budget (timeout / 3) * 2; otherwise
extraction. -/
def Browser.runInner (cfg : BrowserConfig) (data0 : BrowserData) (url : String)
    (timeout : Nat) (env : NavEnv) : GetTrace :=
  let data1 : BrowserData :=
    { data0 with cookies := Browser.clean_expired_cookies data0.cookies env.now }
  match env.configureResult with
  | .error e => ⟨.err e, data1, false, 0⟩
  | .ok _ =>
    match env.navigateResult with
    | .error e => ⟨.err e, data1, false, 0⟩
    | .ok _ =>
      match Browser.ddosPhase env timeout with
      | .error e => ⟨.err e, data1, false, 0⟩
      | .ok _ =>
        if env.cfDetected then
          match cloudflare.handle_challenge env.cfProtectedAt (timeout / 3) with
          | .ok _ =>
            match Browser.extract_response data1 url env with
            | .error e => ⟨.err e, data1, false, 0⟩
            | .ok (data2, resp) => ⟨.ok resp, data2, false, 0⟩
          | .error _ =>
            match env.cfQuitResult with
            | .error e => ⟨.err e, data1, false, 1⟩
            | .ok _ =>
              match Browser.fallback_to_scrappey cfg data1 url env.scrappeyResult with
              | .err e => ⟨.err e, data1, true, 1⟩
              | .panicked m => ⟨.panicked m, data1, true, 1⟩
              | .ok (data2, resp) => ⟨.ok resp, data2, true, 1⟩
        else
          match Browser.extract_response data1 url env with
          | .error e => ⟨.err e, data1, false, 0⟩
          | .ok (data2, resp) => ⟨.ok resp, data2, false, 0⟩

/-- Browser.get (browser.rs, lines 99-126): driver setup, the inner closure,
then the unconditional final driver.quit(), reporting the first error
observed.  A panic inside the inner closure unwinds past the final quit, so
no teardown is counted on that path. -/
def Browser.get (cfg : BrowserConfig) (data0 : BrowserData) (url : String)
    (timeout : Nat) (env : NavEnv) : GetTrace :=
  match env.setupResult with
  | .error e => ⟨.err e, data0, false, 0⟩
  | .ok _ =>
    let inner := Browser.runInner cfg data0 url timeout env
    match inner.outcome with
    | .panicked m => ⟨.panicked m, inner.data, inner.fallbackInvoked, inner.quitCalls⟩
    | .err e => ⟨.err e, inner.data, inner.fallbackInvoked, inner.quitCalls + 1⟩
    | .ok resp =>
      match env.finalQuitResult with
      | .ok _ => ⟨.ok resp, inner.data, inner.fallbackInvoked, inner.quitCalls + 1⟩
      | .error e => ⟨.err e, inner.data, inner.fallbackInvoked, inner.quitCalls + 1⟩

/-! ## FlareSolverr API layer (src/flaresolverr.rs)

The expires field of a FlareSolverr cookie is an f64 in the source; it is
modelled as an exact rational.  The only arithmetic performed on it is
(exp as f64) / 1000.0, which the rational division mirrors; all concrete
inputs used below are exactly representable as f64, where the two agree. -/

/-- FlareSolverr-compatible cookie (flaresolverr.rs, struct
FlaresolverrCookie). -/
structure FlaresolverrCookie where
  name : String
  value : String
  domain : Option String
  path : Option String
  expires : ℚ
  http_only : Bool
  secure : Option Bool
  same_site : Option String
deriving DecidableEq, Repr

/-- String form of a SameSite variant used by the conversion
(flaresolverr.rs, lines 53-57). -/
def SameSite.str : SameSite → String
  | .lax => "Lax"
  | .strict => "Strict"
  | .noneSite => "None"

/-- Conversion from a thirtyfour cookie to a FlareSolverr cookie
(flaresolverr.rs, impl From for FlaresolverrCookie): expires is -1 for a
session cookie and otherwise exp as f64 / 1000.0 (the source comment reads
"Convert ms to seconds"); httpOnly is hard-coded false. -/
def FlaresolverrCookie.ofCookie (cookie : Cookie) : FlaresolverrCookie :=
  { name := cookie.name
    value := cookie.value
    domain := cookie.domain
    path := cookie.path
    expires :=
      match cookie.expiry with
      | none => -1
      | some exp => (exp : ℚ) / 1000
    http_only := false
    secure := cookie.secure
    same_site := cookie.same_site.map SameSite.str }

/-- Incoming FlareSolverr v1 request, restricted to the fields consumed by
handle_request_get (flaresolverr.rs, struct V1Request). -/
structure V1Request where
  cmd : String
  url : Option String := none
  post_data : Option String := none
  max_timeout : Option Nat := none
  return_only_cookies : Option Bool := none
  download : Option Bool := none
  return_raw_html : Option Bool := none
deriving DecidableEq, Repr

/-- The solution object of a successful v1 response (flaresolverr.rs, struct
ChallengeResolutionResult); the headers map is always empty in the source. -/
structure ChallengeResolutionResult where
  url : String
  status : Nat
  headers : List (String × String)
  response : String
  cookies : List FlaresolverrCookie
  user_agent : String
deriving DecidableEq, Repr

/-- Outgoing FlareSolverr v1 response (flaresolverr.rs, struct V1Response). -/
structure V1Response where
  status : String
  message : String
  start_timestamp : Nat
  end_timestamp : Nat
  version : String
  solution : Option ChallengeResolutionResult
  session : Option String
  sessions : Option (List String)
deriving DecidableEq, Repr

/-- Solution construction inside handle_request_get (flaresolverr.rs, lines
335-350): the response body is blanked when returnOnlyCookies is true, and
cookies and userAgent are taken from the navigation result. -/
def buildSolution (return_only_cookies : Option Bool) (resp : Response) :
    ChallengeResolutionResult :=
  { url := resp.url
    status := resp.status
    headers := []
    response := if return_only_cookies.getD false then "" else resp.body
    cookies := resp.cookies.map FlaresolverrCookie.ofCookie
    user_agent := resp.user_agent }

/-- GET handler (flaresolverr.rs, handle_request_get) given the outcome of
the Browser.get navigation: validation of url and postData, then on success
a v1 response built around buildSolution; a navigation panic unwinds. -/
def handle_request_get (req : V1Request) (navResult : Outcome Response) :
    Outcome V1Response :=
  match req.url with
  | none => .err "Request parameter 'url' is mandatory in 'request.get' command."
  | some _ =>
    if req.post_data.isSome then
      .err "Cannot use 'postData' when sending a GET request."
    else
      match navResult with
      | .panicked m => .panicked m
      | .err e => .err ("Error solving the challenge: " ++ e)
      | .ok resp =>
        .ok { status := "ok"
              message := "Challenge solved!"
              start_timestamp := 0
              end_timestamp := 0
              version := "3.3.21"
              solution := some (buildSolution req.return_only_cookies resp)
              session := none
              sessions := none }

/-! ## HTTP forward proxy bridge (src/fwd_proxy.rs)

Per-connection byte streams are modelled as the list of strings returned by
the successive read_line calls on each side (each element carries its
original line terminator; list exhaustion is a zero-byte read).  Writes are
collected in order.  The bidirectional splice that follows a successfully
forwarded request lies beyond the header phase embedded here and is
represented by the ok result. -/

/-- Bridge configuration (fwd_proxy.rs, struct ProxyConfig). -/
structure ProxyConfig where
  http_proxy_addr : String
  http_proxy_port : Nat
  username : Option String := none
  password : Option String := none
deriving DecidableEq, Repr

/-- Typed per-connection errors of the bridge, one per distinct anyhow
error site in the source. -/
inductive BridgeError where
  | invalidRequestLine
  | dialFailed (msg : String)
  | upstreamRefused (response : String)
deriving DecidableEq, Repr

deriving instance DecidableEq for Except

/-- Observable trace of one handled client connection: whether the upstream
proxy was dialed, the strings written to the upstream and to the client, in
order, and the result. -/
structure BridgeOutcome where
  dialAttempted : Bool
  upstreamWrites : List String
  clientWrites : List String
  result : Except BridgeError Unit
deriving DecidableEq, Repr

/-- Substring test used for the `"200"` check on the upstream status line
(Rust str::contains). -/
def strContains (s pat : String) : Bool :=
  s.toList.tails.any fun t => pat.toList.isPrefixOf t

/-- Base64 alphabet (standard, with padding), as used by
base64::engine::general_purpose::STANDARD. -/
def base64Alphabet : List Char :=
  "ABCDEFGHIJKLMNOPQRSTUVWXYZabcdefghijklmnopqrstuvwxyz0123456789+/".toList

/-- Standard base64 encoding of a byte list, three bytes to four output
characters, padded with '='. -/
def base64EncodeBytes : List Nat → List Char
  | [] => []
  | [a] =>
    [base64Alphabet.getD (a / 4) 'A', base64Alphabet.getD (a % 4 * 16) 'A', '=', '=']
  | [a, b] =>
    [base64Alphabet.getD (a / 4) 'A', base64Alphabet.getD (a % 4 * 16 + b / 16) 'A',
     base64Alphabet.getD (b % 16 * 4) 'A', '=']
  | a :: b :: c :: rest =>
    base64Alphabet.getD (a / 4) 'A'
      :: base64Alphabet.getD (a % 4 * 16 + b / 16) 'A'
      :: base64Alphabet.getD (b % 16 * 4 + c / 64) 'A'
      :: base64Alphabet.getD (c % 64) 'A'
      :: base64EncodeBytes rest

/-- UTF-8 encoding of a single character as byte values. -/
def utf8Bytes (c : Char) : List Nat :=
  let n := c.toNat
  if n < 0x80 then [n]
  else if n < 0x800 then [0xC0 + n / 64, 0x80 + n % 64]
  else if n < 0x10000 then [0xE0 + n / 4096, 0x80 + n / 64 % 64, 0x80 + n % 64]
  else [0xF0 + n / 262144, 0x80 + n / 4096 % 64, 0x80 + n / 64 % 64, 0x80 + n % 64]

/-- Base64 of the UTF-8 bytes of a string. -/
def base64Encode (s : String) : String :=
  String.mk (base64EncodeBytes (s.data.flatMap utf8Bytes))

/-- Whitespace trimming at both ends of a character list. -/
def trimChars (l : List Char) : List Char :=
  ((l.dropWhile Char.isWhitespace).reverse.dropWhile Char.isWhitespace).reverse

/-- Whitespace trimming of a string (Rust str::trim). -/
def strTrim (s : String) : String :=
  String.mk (trimChars s.data)

/-- CONNECT request written to the upstream proxy (fwd_proxy.rs, lines
175-184): request line and Host header, a Proxy-Authorization header only
when both credentials are set, then the Connection: close terminator. -/
def buildConnectRequest (target : String) (config : ProxyConfig) : String :=
  let base := "CONNECT " ++ target ++ " HTTP/1.1\r\nHost: " ++ target ++ "\r\n"
  let withAuth :=
    match config.username, config.password with
    | some username, some password =>
      base ++ "Proxy-Authorization: Basic "
        ++ base64Encode (username ++ ":" ++ password) ++ "\r\n"
    | _, _ => base
  withAuth ++ "Connection: close\r\n\r\n"

/-- Error-path header accumulation (fwd_proxy.rs, lines 195-201): after a
non-200 status line, header lines are appended to the forwarded response
until a zero-byte read or a lone CRLF line, which is consumed but not
appended. -/
def collectErrHeaders : List String → String
  | [] => ""
  | l :: ls => if l = "\r\n" then "" else l ++ collectErrHeaders ls

/-- Client header accumulation on the regular path (fwd_proxy.rs, lines
259-268): lines are buffered until a line that is blank after trimming
(a zero-byte read also yields a blank line). -/
def collectClientHeaders : List String → List String
  | [] => []
  | l :: ls => if strTrim l = "" then [] else l :: collectClientHeaders ls

/-- CONNECT handler (fwd_proxy.rs, handle_connect_method): dial the upstream,
send the CONNECT request, read the status line; on a line not containing
"200" consume the remaining headers up to the blank line, forward the
accumulated response to the client and fail with the denial error; on 200
discard both remaining header blocks, acknowledge the client, and splice. -/
def handle_connect_method (target : String) (config : ProxyConfig)
    (dial : Except String Unit) (upstreamLines : List String)
    (_clientLines : List String) : BridgeOutcome :=
  match dial with
  | .error m => ⟨true, [], [], .error (.dialFailed m)⟩
  | .ok _ =>
    let request := buildConnectRequest target config
    let statusLine := upstreamLines.headD ""
    if strContains statusLine "200" then
      ⟨true, [request], ["HTTP/1.1 200 Connection established\r\n\r\n"], .ok ()⟩
    else
      let fullResponse := statusLine ++ collectErrHeaders upstreamLines.tail
      ⟨true, [request], [fullResponse], .error (.upstreamRefused (strTrim fullResponse))⟩

/-- Proxy-Authorization header written on the regular path, empty when
either credential is missing (fwd_proxy.rs, lines 270-275). -/
def regularAuthWrites (config : ProxyConfig) : List String :=
  match config.username, config.password with
  | some username, some password =>
    ["Proxy-Authorization: Basic " ++ base64Encode (username ++ ":" ++ password) ++ "\r\n"]
  | _, _ => []

/-- Regular-method handler (fwd_proxy.rs, handle_regular_method): dial the
upstream, forward the request line, buffer the client's headers, write the
injected auth header (if any) before the buffered headers, terminate with a
blank line, then splice. -/
def handle_regular_method (requestLine : String) (config : ProxyConfig)
    (dial : Except String Unit) (clientLines : List String) : BridgeOutcome :=
  match dial with
  | .error m => ⟨true, [], [], .error (.dialFailed m)⟩
  | .ok _ =>
    ⟨true,
     requestLine :: (regularAuthWrites config ++ collectClientHeaders clientLines ++ ["\r\n"]),
     [],
     .ok ()⟩

/-- Accumulator pass splitting a character list into maximal non-whitespace
runs; the accumulator holds the current token reversed. -/
def wsSplitGo : List Char → List Char → List String
  | [], acc => if acc.isEmpty then [] else [String.mk acc.reverse]
  | c :: cs, acc =>
    if c.isWhitespace then
      if acc.isEmpty then wsSplitGo cs []
      else String.mk acc.reverse :: wsSplitGo cs []
    else wsSplitGo cs (c :: acc)

/-- Whitespace tokenisation of the request line (Rust split_whitespace). -/
def splitWhitespace (line : String) : List String :=
  wsSplitGo line.data []

/-- Client connection handler (fwd_proxy.rs, handle_client): a zero-byte
first read or a whitespace-only request line succeeds silently; fewer than
three tokens is an invalid request line; otherwise dispatch on the method
token, CONNECT to the tunnel handler and anything else to the regular
handler. -/
def handle_client (firstRead : Option String) (config : ProxyConfig)
    (dial : Except String Unit) (upstreamLines clientLines : List String) :
    BridgeOutcome :=
  match firstRead with
  | none => ⟨false, [], [], .ok ()⟩
  | some requestLine =>
    if strTrim requestLine = "" then ⟨false, [], [], .ok ()⟩
    else
      let parts := splitWhitespace requestLine
      if parts.length < 3 then ⟨false, [], [], .error .invalidRequestLine⟩
      else if parts.headD "" = "CONNECT" then
        handle_connect_method (parts.getD 1 "") config dial upstreamLines clientLines
      else
        handle_regular_method requestLine config dial clientLines

/-! ## Concrete fixtures used by witnesses and counterexamples -/

/-- Session cookie fixture (no expiry). -/
def sessionCookie : Cookie := { name := "sess", value := "v1" }

/-- Expired cookie fixture. -/
def staleCookie : Cookie := { name := "old", value := "v2", expiry := some 5 }

/-- Cookie fixture with a realistic seconds-since-epoch expiry. -/
def epochCookie : Cookie := { name := "sid", value := "v3", expiry := some 1700000000 }

/-- Session data fixture. -/
def dataUA : BrowserData := { user_agent := "UA", cookies := [] }

/-- Request fixture with returnOnlyCookies set. -/
def reqOnlyCookies : V1Request :=
  { cmd := "request.get", url := some "http://t", return_only_cookies := some true }

/-- Navigation result fixture. -/
def respFixture : Response :=
  { url := "http://t", status := 200, body := "<html>ok</html>"
    cookies := [sessionCookie], user_agent := "UA" }

/-- Bridge configuration fixture without credentials. -/
def cfgNoCreds : ProxyConfig := { http_proxy_addr := "proxy.example", http_proxy_port := 3128 }

/-- Bridge configuration fixture with credentials u:p. -/
def cfgCreds : ProxyConfig :=
  { http_proxy_addr := "proxy.example", http_proxy_port := 3128
    username := some "u", password := some "p" }

/-- Navigation oracle fixture: all driver operations succeed, a DDoS-Guard
challenge is detected and the page stays protected for the first 9 waiter
ticks, no Cloudflare challenge appears, and extraction succeeds. -/
def envDdos9 : NavEnv :=
  { setupResult := .ok (), now := 0, configureResult := .ok (), navigateResult := .ok ()
    ddosDetected := true, ddosProtectedAt := fun e => e < 9
    cfDetected := false, cfProtectedAt := fun _ => false
    cfQuitResult := .ok (), scrappeyResult := .error "unused"
    extractResult := .ok (), extractCookies := [], extractAllCookies := []
    extractBody := "<html>ok</html>", finalQuitResult := .ok () }

/-- Navigation oracle fixture: a Cloudflare challenge never clears and the
driver teardown performed before the fallback fails. -/
def envCfQuitFails : NavEnv :=
  { setupResult := .ok (), now := 0, configureResult := .ok (), navigateResult := .ok ()
    ddosDetected := false, ddosProtectedAt := fun _ => false
    cfDetected := true, cfProtectedAt := fun _ => true
    cfQuitResult := .error "invalid session id", scrappeyResult := .error "unused"
    extractResult := .ok (), extractCookies := [], extractAllCookies := []
    extractBody := "", finalQuitResult := .ok () }

/-- Navigation oracle fixture: a Cloudflare challenge never clears, the
pre-fallback teardown succeeds, and the Scrappey call fails in transport. -/
def envCfFallback : NavEnv :=
  { envCfQuitFails with
    cfQuitResult := .ok ()
    scrappeyResult := .error "solver transport error" }

/-! ## Claim C4 - expired-cookie sweep -/

/-- C4: for every session data value and every time now, after the
expired-cookie sweep every retained cookie has expiry None or expiry strictly
greater than now, and every cookie whose expiry is None is preserved. -/
theorem c4_sweep_invariant (cs : List Cookie) (now : Int) :
    (∀ c ∈ Browser.clean_expired_cookies cs now,
      c.expiry = none ∨ ∃ e, c.expiry = some e ∧ now < e)
    ∧ (∀ c ∈ cs, c.expiry = none → c ∈ Browser.clean_expired_cookies cs now) := by
  constructor
  · intro c hc
    rw [Browser.clean_expired_cookies, List.mem_filter] at hc
    obtain ⟨-, hp⟩ := hc
    cases h : c.expiry with
    | none => exact Or.inl rfl
    | some e =>
      refine Or.inr ⟨e, rfl, ?_⟩
      rw [h] at hp
      by_cases hle : e ≤ now
      · simp [hle] at hp
      · omega
  · intro c hc hnone
    rw [Browser.clean_expired_cookies, List.mem_filter]
    exact ⟨hc, by rw [hnone]⟩

/-- Witness for C4 at a concrete sweep: the session cookie survives a sweep
that drops the stale cookie, and every survivor is unexpired. -/
theorem c4_sweep_invariant_witness :
    sessionCookie ∈ Browser.clean_expired_cookies [sessionCookie, staleCookie] 10
    ∧ (∀ c ∈ Browser.clean_expired_cookies [sessionCookie, staleCookie] 10,
        c.expiry = none ∨ ∃ e, c.expiry = some e ∧ (10 : Int) < e) :=
  ⟨(c4_sweep_invariant [sessionCookie, staleCookie] 10).2 sessionCookie
      (List.mem_cons_self _ _) rfl,
   (c4_sweep_invariant [sessionCookie, staleCookie] 10).1⟩

/-! ## Claim C7 - cookie expiry units -/

/-- C7 (code bug): the FlareSolverr conversion divides the expiry by 1000
("Convert ms to seconds" in flaresolverr.rs) even though the same field is
compared in seconds against Utc::now().timestamp() by the sweep in
browser.rs, so expires is not reported equal to the expiry e; the session
cookie is mapped to -1 as claimed, and the sweep drops the same cookie one
second after its seconds-since-epoch expiry, evidencing the seconds unit. -/
theorem c7_expires_divided_by_1000 :
    (FlaresolverrCookie.ofCookie epochCookie).expires = 1700000
    ∧ (FlaresolverrCookie.ofCookie epochCookie).expires ≠ (1700000000 : ℚ)
    ∧ (FlaresolverrCookie.ofCookie sessionCookie).expires = -1
    ∧ Browser.clean_expired_cookies [epochCookie] 1700000001 = [] := by
  refine ⟨?_, ?_, rfl, rfl⟩
  · show ((1700000000 : Int) : ℚ) / 1000 = 1700000
    norm_num
  · show ((1700000000 : Int) : ℚ) / 1000 ≠ 1700000000
    norm_num

/-! ## Claim C8 - fallback panics when solution.cookies is absent -/

/-- C8 (code bug): fallback_to_scrappey calls unwrap() on the optional
solution.cookies field, so a solver response without cookies makes it panic
instead of returning a typed error, contradicting the no-panic policy. -/
theorem c8_fallback_panics_on_missing_cookies :
    Browser.fallback_to_scrappey { scrappey_api_key := "key" } dataUA "http://t"
      (.ok { solution := {} })
    = .panicked "called Option.unwrap on a None value" := rfl

/-! ## Claim C9 - returnOnlyCookies blanks the body -/

/-- C9: every successful request.get navigation with returnOnlyCookies true
yields a solution whose response is the empty string while cookies and
userAgent are still populated from the navigation result. -/
theorem c9_return_only_cookies_blank_body (req : V1Request) (resp : Response)
    (hurl : req.url.isSome = true) (hpost : req.post_data = none)
    (hroc : req.return_only_cookies = some true) :
    ∃ v, handle_request_get req (.ok resp) = .ok v
      ∧ ∃ s, v.solution = some s
        ∧ s.response = ""
        ∧ s.cookies = resp.cookies.map FlaresolverrCookie.ofCookie
        ∧ s.user_agent = resp.user_agent := by
  obtain ⟨u, hu⟩ := Option.isSome_iff_exists.mp hurl
  have h1 : handle_request_get req (.ok resp)
      = .ok { status := "ok", message := "Challenge solved!", start_timestamp := 0
              end_timestamp := 0, version := "3.3.21"
              solution := some (buildSolution req.return_only_cookies resp)
              session := none, sessions := none } := by
    rw [handle_request_get, hu, hpost]
    rfl
  refine ⟨_, h1, buildSolution req.return_only_cookies resp, rfl, ?_, rfl, rfl⟩
  rw [buildSolution, hroc]
  rfl

/-- Witness for C9 at a concrete request and navigation result. -/
theorem c9_return_only_cookies_blank_body_witness :
    ∃ v, handle_request_get reqOnlyCookies (.ok respFixture) = .ok v
      ∧ ∃ s, v.solution = some s
        ∧ s.response = ""
        ∧ s.cookies = respFixture.cookies.map FlaresolverrCookie.ofCookie
        ∧ s.user_agent = respFixture.user_agent :=
  c9_return_only_cookies_blank_body reqOnlyCookies respFixture rfl rfl rfl

/-! ## Claim C10 - empty first request line on the bridge -/

/-- Helper: the CONNECT handler never reports the invalid-request-line
error. -/
theorem connect_result_not_invalid (target : String) (config : ProxyConfig)
    (dial : Except String Unit) (ups cls : List String) :
    (handle_connect_method target config dial ups cls).result
      ≠ .error .invalidRequestLine := by
  cases dial with
  | error m => simp [handle_connect_method]
  | ok u =>
    simp only [handle_connect_method]
    split <;> simp

/-- Helper: the regular handler never reports the invalid-request-line
error. -/
theorem regular_result_not_invalid (requestLine : String) (config : ProxyConfig)
    (dial : Except String Unit) (cls : List String) :
    (handle_regular_method requestLine config dial cls).result
      ≠ .error .invalidRequestLine := by
  cases dial with
  | error m => simp [handle_regular_method]
  | ok u => simp [handle_regular_method]

/-- C10: a zero-byte first read or a whitespace-only request line makes
handle_client succeed with no client writes and no upstream dial; the
invalid-request-line error arises exactly from a non-blank request line with
fewer than three whitespace-separated tokens. -/
theorem c10_empty_request_line (config : ProxyConfig) (dial : Except String Unit)
    (ups cls : List String) :
    handle_client none config dial ups cls = ⟨false, [], [], .ok ()⟩
    ∧ (∀ line, strTrim line = "" →
        handle_client (some line) config dial ups cls = ⟨false, [], [], .ok ()⟩)
    ∧ (∀ line, strTrim line ≠ "" → (splitWhitespace line).length < 3 →
        handle_client (some line) config dial ups cls
          = ⟨false, [], [], .error .invalidRequestLine⟩)
    ∧ (∀ line, strTrim line ≠ "" → ¬ (splitWhitespace line).length < 3 →
        (handle_client (some line) config dial ups cls).result
          ≠ .error .invalidRequestLine) := by
  refine ⟨rfl, ?_, ?_, ?_⟩
  · intro line hblank
    rw [handle_client, if_pos hblank]
  · intro line hblank hshort
    rw [handle_client, if_neg hblank, if_pos hshort]
  · intro line hblank hlong
    rw [handle_client, if_neg hblank, if_neg hlong]
    by_cases hm : (splitWhitespace line).headD "" = "CONNECT"
    · rw [if_pos hm]
      exact connect_result_not_invalid _ _ _ _ _
    · rw [if_neg hm]
      exact regular_result_not_invalid _ _ _ _

/-- Witness for C10 at concrete connections: EOF and a whitespace-only line
succeed silently without dialing, a two-token line is rejected, and a full
CONNECT line is not rejected as invalid. -/
theorem c10_empty_request_line_witness :
    handle_client none cfgNoCreds (.ok ()) [] [] = ⟨false, [], [], .ok ()⟩
    ∧ handle_client (some " \r\n") cfgNoCreds (.ok ()) [] [] = ⟨false, [], [], .ok ()⟩
    ∧ handle_client (some "GET /x\r\n") cfgNoCreds (.ok ()) [] []
        = ⟨false, [], [], .error .invalidRequestLine⟩
    ∧ (handle_client (some "CONNECT example.com:443 HTTP/1.1\r\n") cfgNoCreds (.ok ())
        ["HTTP/1.1 200 OK\r\n", "\r\n"] []).result ≠ .error .invalidRequestLine :=
  ⟨(c10_empty_request_line cfgNoCreds (.ok ()) [] []).1,
   (c10_empty_request_line cfgNoCreds (.ok ()) [] []).2.1 _ rfl,
   (c10_empty_request_line cfgNoCreds (.ok ()) [] []).2.2.1 _ (by decide) (by decide),
   (c10_empty_request_line cfgNoCreds (.ok ()) ["HTTP/1.1 200 OK\r\n", "\r\n"] []).2.2.2 _
      (by decide) (by decide)⟩

/-! ## Claim C3 - no Proxy-Authorization without credentials -/

/-- Counterexample to C3 as stated: with credentials unset, a
Proxy-Authorization header supplied by the client itself is forwarded
verbatim to the upstream on the regular path, so the bytes written upstream
do contain such a header. -/
theorem c3_counterexample :
    cfgNoCreds.username = none
    ∧ cfgNoCreds.password = none
    ∧ "Proxy-Authorization: Basic dTpw\r\n"
        ∈ (handle_regular_method "GET http://example.com/ HTTP/1.1\r\n" cfgNoCreds (.ok ())
            ["Proxy-Authorization: Basic dTpw\r\n", "\r\n"]).upstreamWrites := by
  refine ⟨rfl, rfl, ?_⟩
  show "Proxy-Authorization: Basic dTpw\r\n"
    ∈ ["GET http://example.com/ HTTP/1.1\r\n", "Proxy-Authorization: Basic dTpw\r\n", "\r\n"]
  simp

/-- C3 (amended): if username or password is None the bridge injects no
Proxy-Authorization header of its own - the CONNECT request written upstream
is exactly the credential-free form, the injected-header list of the regular
path is empty, and the regular path writes upstream exactly the client's
request line, the client's own header lines verbatim, and the terminating
blank line. -/
theorem c3_no_injected_auth (config : ProxyConfig)
    (h : config.username = none ∨ config.password = none) :
    (∀ target, buildConnectRequest target config
      = ("CONNECT " ++ target ++ " HTTP/1.1\r\nHost: " ++ target ++ "\r\n")
          ++ "Connection: close\r\n\r\n")
    ∧ regularAuthWrites config = []
    ∧ (∀ requestLine clientLines,
        (handle_regular_method requestLine config (.ok ()) clientLines).upstreamWrites
          = requestLine :: (collectClientHeaders clientLines ++ ["\r\n"])) := by
  have hauth : regularAuthWrites config = [] := by
    rcases h with h | h
    · rw [regularAuthWrites, h]
    · cases hu : config.username with
      | none => rw [regularAuthWrites, hu]
      | some u => rw [regularAuthWrites, hu, h]
  refine ⟨?_, hauth, ?_⟩
  · intro target
    rcases h with h | h
    · rw [buildConnectRequest, h]
    · cases hu : config.username with
      | none => rw [buildConnectRequest, hu]
      | some u => rw [buildConnectRequest, hu, h]
  · intro requestLine clientLines
    simp [handle_regular_method, hauth]

/-- Witness for C3 (amended) at the credential-free configuration and a
concrete regular request. -/
theorem c3_no_injected_auth_witness :
    buildConnectRequest "example.com:443" cfgNoCreds
      = "CONNECT example.com:443 HTTP/1.1\r\nHost: example.com:443\r\nConnection: close\r\n\r\n"
    ∧ regularAuthWrites cfgNoCreds = []
    ∧ (handle_regular_method "GET http://example.com/ HTTP/1.1\r\n" cfgNoCreds (.ok ())
        ["Accept: */*\r\n", "\r\n"]).upstreamWrites
      = ["GET http://example.com/ HTTP/1.1\r\n", "Accept: */*\r\n", "\r\n"] :=
  ⟨(c3_no_injected_auth cfgNoCreds (Or.inl rfl)).1 "example.com:443",
   (c3_no_injected_auth cfgNoCreds (Or.inl rfl)).2.1,
   by rw [(c3_no_injected_auth cfgNoCreds (Or.inl rfl)).2.2
       "GET http://example.com/ HTTP/1.1\r\n" ["Accept: */*\r\n", "\r\n"]]
      rfl⟩

/-! ## Claim C6 - CONNECT denial forwarding -/

/-- Helper: the error-path accumulation collects exactly the header lines
strictly before the terminating blank line. -/
theorem collectErrHeaders_until_blank (hdrs rest : List String)
    (hblank : "\r\n" ∉ hdrs) :
    collectErrHeaders (hdrs ++ "\r\n" :: rest) = hdrs.foldr (· ++ ·) "" := by
  induction hdrs with
  | nil => simp [collectErrHeaders]
  | cons l ls ih =>
    have hl : l ≠ "\r\n" := fun h => hblank (h ▸ List.mem_cons_self _ _)
    rw [List.cons_append, collectErrHeaders, if_neg hl,
        ih fun h => hblank (List.mem_cons_of_mem _ h)]
    rfl

/-- Counterexample to C6 as stated, at scenario S6: the upstream's 407
response ends with a blank line, but the bridge forwards only the status
line and the Proxy-Authenticate header - the terminating CRLF is consumed
without being forwarded, so the client does not receive the entire upstream
response verbatim. -/
theorem c6_counterexample :
    (handle_connect_method "example.com:443" cfgCreds (.ok ())
        ["HTTP/1.1 407 Proxy Authentication Required\r\n", "Proxy-Authenticate: Basic\r\n", "\r\n"]
        []).clientWrites
      = ["HTTP/1.1 407 Proxy Authentication Required\r\nProxy-Authenticate: Basic\r\n"]
    ∧ (handle_connect_method "example.com:443" cfgCreds (.ok ())
        ["HTTP/1.1 407 Proxy Authentication Required\r\n", "Proxy-Authenticate: Basic\r\n", "\r\n"]
        []).clientWrites
      ≠ ["HTTP/1.1 407 Proxy Authentication Required\r\nProxy-Authenticate: Basic\r\n\r\n"]
    ∧ (handle_connect_method "example.com:443" cfgCreds (.ok ())
        ["HTTP/1.1 407 Proxy Authentication Required\r\n", "Proxy-Authenticate: Basic\r\n", "\r\n"]
        []).result
      = .error (.upstreamRefused
          "HTTP/1.1 407 Proxy Authentication Required\r\nProxy-Authenticate: Basic") := by
  exact ⟨rfl, by decide, rfl⟩

/-- C6 (amended): whenever the upstream status line does not contain "200",
the bridge consumes the upstream header lines up to the blank line and
forwards the status line plus those header lines - but not the terminating
blank line - to the client, then reports the upstream-refused error. -/
theorem c6_connect_denied_forwarding (target : String) (config : ProxyConfig)
    (status : String) (hdrs rest clientLines : List String)
    (h200 : strContains status "200" = false) (hblank : "\r\n" ∉ hdrs) :
    handle_connect_method target config (.ok ())
        (status :: (hdrs ++ "\r\n" :: rest)) clientLines
      = ⟨true, [buildConnectRequest target config],
         [status ++ hdrs.foldr (· ++ ·) ""],
         .error (.upstreamRefused (strTrim (status ++ hdrs.foldr (· ++ ·) "")))⟩ := by
  rw [handle_connect_method.eq_def]
  simp only [List.headD_cons, List.tail_cons, h200, Bool.false_eq_true, if_false,
    collectErrHeaders_until_blank hdrs rest hblank]

/-- Witness for C6 (amended) at the S6 fixture. -/
theorem c6_connect_denied_forwarding_witness :
    handle_connect_method "example.com:443" cfgCreds (.ok ())
        ["HTTP/1.1 407 Proxy Authentication Required\r\n", "Proxy-Authenticate: Basic\r\n", "\r\n"]
        []
      = ⟨true, [buildConnectRequest "example.com:443" cfgCreds],
         ["HTTP/1.1 407 Proxy Authentication Required\r\nProxy-Authenticate: Basic\r\n"],
         .error (.upstreamRefused
           "HTTP/1.1 407 Proxy Authentication Required\r\nProxy-Authenticate: Basic")⟩ :=
  c6_connect_denied_forwarding "example.com:443" cfgCreds
    "HTTP/1.1 407 Proxy Authentication Required\r\n"
    ["Proxy-Authenticate: Basic\r\n"] [] [] (by rfl) (by decide)

/-! ## Claim C5 - DDoS-Guard waiter budget -/

/-- Helper: a page protected for the first k ticks clears within the budget
when k is at most timeout + 1, for any adequate fuel. -/
theorem waitGo_clear_of_le (k t : Nat) (msg : String) (hk : k ≤ t + 1) :
    ∀ fuel e, k ≤ fuel + e →
      waitGo (fun i => decide (i < k)) t msg fuel e = .ok () := by
  intro fuel
  induction fuel with
  | zero =>
    intro e he
    have hp : ¬ e < k := by omega
    rw [waitGo.eq_def]
    simp [hp]
  | succ n ih =>
    intro e he
    rw [waitGo.eq_def]
    by_cases hp : e < k
    · have ht : ¬ e > t := by omega
      simp only [hp, decide_eq_true_eq, if_true, ht, if_false]
      exact ih (e + 1) (by omega)
    · simp [hp]

/-- Helper: a page protected for the first k ticks makes the waiter fail
with its timeout message when k exceeds timeout + 1. -/
theorem waitGo_timeout_of_gt (k t : Nat) (msg : String) (hk : t + 1 < k) :
    ∀ fuel e, e ≤ t + 1 → t + 2 ≤ fuel + e →
      waitGo (fun i => decide (i < k)) t msg fuel e = .error msg := by
  intro fuel
  induction fuel with
  | zero =>
    intro e h1 h2
    omega
  | succ n ih =>
    intro e h1 h2
    have hp : e < k := by omega
    rw [waitGo.eq_def]
    by_cases he : e > t
    · simp [hp, he]
    · simp only [hp, decide_eq_true_eq, if_true, he, if_false]
      exact ih (e + 1) (by omega) (by omega)

/-- Counterexample to C5 as stated: with overall timeout 9 and a page that
stays DDoS-Guard-protected for the first 9 waiter ticks, the navigation
succeeds - the waiter runs with the full timeout 9 as its budget - whereas
under the claimed t/3 sub-budget the same waiter would have failed with the
timeout error. -/
theorem c5_counterexample :
    envDdos9.ddosDetected = true
    ∧ (Browser.get {} dataUA "http://t" 9 envDdos9).outcome
        = .ok { url := "http://t", status := 200, body := "<html>ok</html>",
                cookies := [], user_agent := "UA" }
    ∧ ddos_guard.handle_challenge envDdos9.ddosProtectedAt (9 / 3)
        = .error ddosTimeoutMsg :=
  ⟨rfl, rfl, rfl⟩

/-- C5 (amended): when a DDoS-Guard challenge is detected during Browser.get
with overall timeout t, the DDoS-Guard waiter is granted the full overall
timeout t as its budget: a page protected for at most t + 1 ticks clears,
and a page protected longer makes Browser.get terminate with the DDoS-Guard
timeout error. -/
theorem c5_ddos_budget_full (env : NavEnv) (timeout k : Nat)
    (hdet : env.ddosDetected = true)
    (htrace : env.ddosProtectedAt = fun e => decide (e < k)) :
    (k ≤ timeout + 1 → Browser.ddosPhase env timeout = .ok ())
    ∧ (timeout + 1 < k →
        Browser.ddosPhase env timeout = .error ddosTimeoutMsg
        ∧ ∀ cfg data0 url,
            env.setupResult = .ok () → env.configureResult = .ok () →
            env.navigateResult = .ok () →
            (Browser.get cfg data0 url timeout env).outcome = .err ddosTimeoutMsg) := by
  have hphase : Browser.ddosPhase env timeout
      = waitGo (fun e => decide (e < k)) timeout ddosTimeoutMsg (timeout + 2) 0 := by
    simp only [Browser.ddosPhase, hdet, if_true, ddos_guard.handle_challenge, htrace]
  constructor
  · intro hk
    rw [hphase]
    exact waitGo_clear_of_le k timeout _ hk _ 0 (by omega)
  · intro hk
    have herr : Browser.ddosPhase env timeout = .error ddosTimeoutMsg := by
      rw [hphase]
      exact waitGo_timeout_of_gt k timeout _ hk _ 0 (by omega) (by omega)
    refine ⟨herr, ?_⟩
    intro cfg data0 url hsetup hconf hnav
    simp only [Browser.get, hsetup, Browser.runInner, hconf, hnav, herr]

/-- Witness for C5 (amended): with budget 9 the 9-tick-protected page clears,
and with budget 7 the same page makes Browser.get fail with the DDoS-Guard
timeout error. -/
theorem c5_ddos_budget_full_witness :
    Browser.ddosPhase envDdos9 9 = .ok ()
    ∧ (Browser.get {} dataUA "http://t" 7 envDdos9).outcome = .err ddosTimeoutMsg :=
  ⟨(c5_ddos_budget_full envDdos9 9 9 rfl rfl).1 (by omega),
   ((c5_ddos_budget_full envDdos9 7 9 rfl rfl).2 (by omega)).2 {} dataUA "http://t" rfl rfl rfl⟩

/-! ## Claim C1 - challenge-timeout policy (fallback vs terminal) -/

/-- Counterexample to C1 as stated: a navigation in which the Cloudflare
waiter exceeds its sub-budget but the driver teardown performed before the
fallback fails; Browser.get terminates with the teardown error and the
Scrappey fallback is never invoked. -/
theorem c1_counterexample :
    envCfQuitFails.cfDetected = true
    ∧ cloudflare.handle_challenge envCfQuitFails.cfProtectedAt (3 / 3)
        = .error cfTimeoutMsg
    ∧ (Browser.get {} dataUA "http://t" 3 envCfQuitFails).fallbackInvoked = false
    ∧ (Browser.get {} dataUA "http://t" 3 envCfQuitFails).outcome = .err "invalid session id" :=
  ⟨rfl, rfl, rfl, rfl⟩

/-- C1 (amended): when the Cloudflare waiter exceeds its sub-budget the
Scrappey fallback is invoked provided the intermediate driver teardown
succeeds, and if that teardown fails Browser.get terminates with the
teardown error without invoking the fallback; when the DDoS-Guard waiter
times out, Browser.get terminates with that error and the fallback is never
invoked. -/
theorem c1_challenge_failure_paths (cfg : BrowserConfig) (data0 : BrowserData)
    (url : String) (timeout : Nat) (env : NavEnv)
    (hsetup : env.setupResult = .ok ()) (hconf : env.configureResult = .ok ())
    (hnav : env.navigateResult = .ok ()) :
    (∀ m, Browser.ddosPhase env timeout = .ok () →
      env.cfDetected = true →
      cloudflare.handle_challenge env.cfProtectedAt (timeout / 3) = .error m →
      ((env.cfQuitResult = .ok () →
          (Browser.get cfg data0 url timeout env).fallbackInvoked = true)
       ∧ ∀ q, env.cfQuitResult = .error q →
           (Browser.get cfg data0 url timeout env).fallbackInvoked = false
           ∧ (Browser.get cfg data0 url timeout env).outcome = .err q))
    ∧ (∀ m, env.ddosDetected = true →
        ddos_guard.handle_challenge env.ddosProtectedAt timeout = .error m →
        (Browser.get cfg data0 url timeout env).outcome = .err m
        ∧ (Browser.get cfg data0 url timeout env).fallbackInvoked = false) := by
  constructor
  · intro m hdd hcf hw
    constructor
    · intro hq
      rcases hf : Browser.fallback_to_scrappey cfg
          { data0 with cookies := Browser.clean_expired_cookies data0.cookies env.now }
          url env.scrappeyResult with p | e | pm
      · rcases hfq : env.finalQuitResult with u | e2
        · simp [Browser.get, hsetup, Browser.runInner, hconf, hnav, hdd, hcf, hw, hq, hf, hfq]
        · simp [Browser.get, hsetup, Browser.runInner, hconf, hnav, hdd, hcf, hw, hq, hf, hfq]
      · simp [Browser.get, hsetup, Browser.runInner, hconf, hnav, hdd, hcf, hw, hq, hf]
      · simp [Browser.get, hsetup, Browser.runInner, hconf, hnav, hdd, hcf, hw, hq, hf]
    · intro q hq
      constructor
      · simp [Browser.get, hsetup, Browser.runInner, hconf, hnav, hdd, hcf, hw, hq]
      · simp [Browser.get, hsetup, Browser.runInner, hconf, hnav, hdd, hcf, hw, hq]
  · intro m hdet hwait
    have hdd : Browser.ddosPhase env timeout = .error m := by
      simp only [Browser.ddosPhase, hdet, if_true, hwait]
    constructor
    · simp [Browser.get, hsetup, Browser.runInner, hconf, hnav, hdd]
    · simp [Browser.get, hsetup, Browser.runInner, hconf, hnav, hdd]

/-- Witness for C1 (amended) at concrete navigations covering all three
branches: fallback invoked after a successful teardown, fallback skipped
after a failed teardown, and a terminal DDoS-Guard timeout. -/
theorem c1_challenge_failure_paths_witness :
    (Browser.get { scrappey_api_key := "key" } dataUA "http://t" 3
        envCfFallback).fallbackInvoked = true
    ∧ (Browser.get {} dataUA "http://t" 3 envCfQuitFails).fallbackInvoked = false
    ∧ (Browser.get {} dataUA "http://t" 3 envCfQuitFails).outcome = .err "invalid session id"
    ∧ (Browser.get {} dataUA "http://t" 7 envDdos9).outcome = .err ddosTimeoutMsg
    ∧ (Browser.get {} dataUA "http://t" 7 envDdos9).fallbackInvoked = false := by
  refine ⟨?_, ?_, ?_, ?_, ?_⟩
  · exact ((c1_challenge_failure_paths { scrappey_api_key := "key" } dataUA "http://t" 3
      envCfFallback rfl rfl rfl).1 cfTimeoutMsg rfl rfl rfl).1 rfl
  · exact (((c1_challenge_failure_paths {} dataUA "http://t" 3 envCfQuitFails
      rfl rfl rfl).1 cfTimeoutMsg rfl rfl rfl).2 "invalid session id" rfl).1
  · exact (((c1_challenge_failure_paths {} dataUA "http://t" 3 envCfQuitFails
      rfl rfl rfl).1 cfTimeoutMsg rfl rfl rfl).2 "invalid session id" rfl).2
  · exact ((c1_challenge_failure_paths {} dataUA "http://t" 7 envDdos9
      rfl rfl rfl).2 ddosTimeoutMsg rfl rfl).1
  · exact ((c1_challenge_failure_paths {} dataUA "http://t" 7 envDdos9
      rfl rfl rfl).2 ddosTimeoutMsg rfl rfl).2

/-! ## Claim C2 - session always released -/

/-- C2: for every Browser.get call whose driver setup succeeds and that
returns (any success or typed-error outcome, as enumerated by the claim; a
panic unwinds without returning), at least one driver.quit() was invoked
before the return. -/
theorem c2_session_released (cfg : BrowserConfig) (data0 : BrowserData)
    (url : String) (timeout : Nat) (env : NavEnv)
    (hsetup : env.setupResult = .ok ())
    (hret : ∀ m, (Browser.get cfg data0 url timeout env).outcome ≠ .panicked m) :
    1 ≤ (Browser.get cfg data0 url timeout env).quitCalls := by
  rcases h : (Browser.runInner cfg data0 url timeout env).outcome with a | e | m
  · rcases hq : env.finalQuitResult with u | e2
    · simp [Browser.get, hsetup, h, hq]
    · simp [Browser.get, hsetup, h, hq]
  · simp [Browser.get, hsetup, h]
  · exfalso
    apply hret m
    simp [Browser.get, hsetup, h]

/-- Witness for C2 at concrete navigations: a successful extraction run and
a failed (DDoS-Guard timeout) run both release the session. -/
theorem c2_session_released_witness :
    1 ≤ (Browser.get {} dataUA "http://t" 9 envDdos9).quitCalls
    ∧ 1 ≤ (Browser.get {} dataUA "http://t" 7 envDdos9).quitCalls :=
  ⟨c2_session_released {} dataUA "http://t" 9 envDdos9 rfl
      (fun _ h => Outcome.noConfusion h),
   c2_session_released {} dataUA "http://t" 7 envDdos9 rfl
      (fun _ h => Outcome.noConfusion h)⟩

end ScrappeyResolverr
